import Mathlib

/-!
# Verification of the stonks market bot core

Shallow embedding of the indicator computation and the crossover-alert
state machine of the repository (src/unnamed/part_000 and src/bot.js).

Prices are modelled as rationals (ℚ): the source uses JS number
arithmetic; the spec demands the formulas be reproducible given
identical decimal arithmetic semantics, and no claim depends on
floating-point rounding.

Provider quotes are modelled by their close field only (`Option ℚ`,
`none` for a null/missing close); nothing else of a quote object is
read by the indicator code.  The display metadata (`name`, `symbol`)
returned by `getAssetData` in the source is omitted from the snapshot:
no claim concerns it.
-/

namespace Stonks

/-- JS truthiness of a quote's close (`filter(q => q.close)` in
src/unnamed/part_000 line 112 and src/bot.js line 48): a close is kept
when it is present and nonzero (0 is falsy in JS; NaN, also falsy, does
not exist in ℚ). -/
def jsTruthy (close : Option ℚ) : Bool :=
  match close with
  | some v => v ≠ 0
  | none => false

/-- The filter/map/reverse pipeline of src/unnamed/part_000 lines
111-114: keep truthy closes, extract the close values, reverse to get
latest-first.  After the `jsTruthy` filter every element is `some`, so
`filterMap id` is exactly the JS `.map(q => q.close)` producing plain
numbers. -/
def validCloses (rawQuotes : List (Option ℚ)) : List ℚ :=
  ((rawQuotes.filter jsTruthy).filterMap id).reverse

/-- One iteration of the gains/losses loop of `calculateRSI`
(src/unnamed/part_000 lines 77-81): `difference = closes[i-1] - closes[i]`;
positive differences accumulate into gains, otherwise the absolute value
accumulates into losses. -/
def rsiStep (closes : List ℚ) (acc : ℚ × ℚ) (i : ℕ) : ℚ × ℚ :=
  let difference := closes.getD (i - 1) 0 - closes.getD i 0
  if 0 < difference then (acc.1 + difference, acc.2) else (acc.1, acc.2 + |difference|)

/-- The (gains, losses) pair after the loop `for (i = 1; i <= period; i++)`
of `calculateRSI`. -/
def rsiSums (closes : List ℚ) (period : ℕ) : ℚ × ℚ :=
  (List.range' 1 period).foldl (rsiStep closes) (0, 0)

/-- `calculateRSI` (src/unnamed/part_000 lines 73-87, identical in
src/bot.js lines 16-30).  In the source, `avgLoss === 0` makes
`rs = Infinity` and `100 - 100/(1 + Infinity) = 100`; the embedding
takes that branch to the constant 100 directly. -/
def calculateRSI (closes : List ℚ) (period : ℕ) : ℚ :=
  let gl := rsiSums closes period
  let avgGain := gl.1 / (period : ℚ)
  let avgLoss := gl.2 / (period : ℚ)
  if avgLoss = 0 then 100
  else 100 - 100 / (1 + avgGain / avgLoss)

/-- The indicator snapshot returned by `getAssetData`
(src/unnamed/part_000 lines 126-134); `none` models JS `null` for an
RSI that lacks data.  `name`/`symbol` display metadata omitted. -/
structure Snapshot where
  currentPrice : ℚ
  ma50 : ℚ
  ma200 : ℚ
  rsi5 : Option ℚ
  rsi14 : Option ℚ
deriving DecidableEq

/-- The pure data-processing core of `getAssetData`
(src/unnamed/part_000 lines 109-134).  The argument is the provider
chart result reduced to its quotes' closes; `none` models a missing
`result?.quotes`.  `getMarketData` of src/bot.js lines 45-66 is the
same computation without `ma50`. -/
def getAssetData (chartQuotes : Option (List (Option ℚ))) : Option Snapshot :=
  match chartQuotes with
  | none => none
  | some rawQuotes =>
    if rawQuotes.length < 200 then none
    else if (validCloses rawQuotes).length < 200 then none
    else
      some { currentPrice := (validCloses rawQuotes).head?.getD 0
           , ma50 := ((validCloses rawQuotes).take 50).sum / 50
           , ma200 := ((validCloses rawQuotes).take 200).sum / 200
           , rsi5 :=
               if 6 ≤ (validCloses rawQuotes).length then
                 some (calculateRSI ((validCloses rawQuotes).take 6) 5)
               else none
           , rsi14 :=
               if 15 ≤ (validCloses rawQuotes).length then
                 some (calculateRSI ((validCloses rawQuotes).take 15) 14)
               else none }

/-- Side of price relative to the 200-day MA ('above'/'below' strings in
the source). -/
inductive Side
  | above
  | below
deriving DecidableEq

/-- Direction label of an emitted crossover alert (bullish = golden
cross, bearish = death cross). -/
inductive Direction
  | bullish
  | bearish
deriving DecidableEq

/-- Classification of the current side, src/unnamed/part_000 line 51:
`data.currentPrice > data.ma200 ? 'above' : 'below'` (equality goes to
below). -/
def classifySide (currentPrice ma200 : ℚ) : Side :=
  if ma200 < currentPrice then Side.above else Side.below

/-- The persisted record `marketData` of src/unnamed/part_000 lines
21-24: `lastStatus` (`none` models JS `null`, the UNKNOWN state) and
the registered alert channel id (`none` models `null`). -/
structure MarketData where
  lastStatus : Option Side
  alertChannel : Option ℕ
deriving DecidableEq

/-- Observable outcome of one scheduled tick: the in-memory
`marketData` after the tick, the durable (on-disk) record after the
tick, and the alert sent to the channel, if any. -/
structure TickOutcome where
  mem : MarketData
  durable : MarketData
  alert : Option Direction
deriving DecidableEq

/-- The scheduled-job callback, src/unnamed/part_000 lines 41-71.
`mem`/`durable` are the in-memory and on-disk `marketData` before the
tick; `channelOk` models `client.channels.fetch` returning a truthy
channel; `data` is the `getAssetData` result (`none` covers both a
thrown fetch error, caught at line 68, and a `null` return); `saveOk`
models whether `fs.writeFileSync` in `saveMarketData` succeeds.  The
source mutates `marketData.lastStatus` (line 66) before calling
`saveMarketData()` (line 67); if the write throws, the `catch` at line
68 only logs, so the in-memory record keeps the new side while the
durable record keeps the old one. -/
def runTick (mem durable : MarketData) (channelOk : Bool)
    (data : Option Snapshot) (saveOk : Bool) : TickOutcome :=
  match mem.alertChannel with
  | none => { mem := mem, durable := durable, alert := none }
  | some _ =>
    if channelOk then
      match data with
      | none => { mem := mem, durable := durable, alert := none }
      | some d =>
        let currentStatus := classifySide d.currentPrice d.ma200
        let alert : Option Direction :=
          match mem.lastStatus with
          | none => none
          | some prior =>
            if prior ≠ currentStatus then
              some (if currentStatus = Side.above then Direction.bullish else Direction.bearish)
            else none
        let updated : MarketData := { mem with lastStatus := some currentStatus }
        { mem := updated
        , durable := if saveOk then updated else durable
        , alert := alert }
    else { mem := mem, durable := durable, alert := none }

/-- The RSI classification of the on-demand report
(src/unnamed/part_000 lines 215-218, src/bot.js lines 91-92):
`rsi >= 70 ? Overbought : rsi <= 30 ? Oversold : Neutral`, applied to a
present RSI value. -/
inductive RsiClass
  | overbought
  | oversold
  | neutral
deriving DecidableEq

/-- RSI threshold classification applied to a present RSI value. -/
def rsiStatus (rsi : ℚ) : RsiClass :=
  if 70 ≤ rsi then RsiClass.overbought
  else if rsi ≤ 30 then RsiClass.oversold
  else RsiClass.neutral

/-- Modelled from the spec (section 3, PriceSeries): the pre-filter the
spec describes for claim C8 amended — retain exactly the entries whose
close is present and nonzero, in order.  Compared against the source's
filter pipeline. -/
def presentNonzeroCloses (rawQuotes : List (Option ℚ)) : List ℚ :=
  rawQuotes.filterMap (fun close =>
    match close with
    | some v => if v = 0 then none else some v
    | none => none)

/-! ## Helper lemmas -/

/-- In the active configuration (channel registered and fetched, data
available) a tick classifies, alerts on a flip from a known prior side,
updates the in-memory record, and writes it to disk when the save
succeeds. -/
lemma runTick_active (ls : Option Side) (ch : ℕ) (durable : MarketData)
    (d : Snapshot) (saveOk : Bool) :
    runTick ⟨ls, some ch⟩ durable true (some d) saveOk =
      { mem := ⟨some (classifySide d.currentPrice d.ma200), some ch⟩
      , durable :=
          if saveOk then ⟨some (classifySide d.currentPrice d.ma200), some ch⟩ else durable
      , alert :=
          match ls with
          | none => none
          | some prior =>
            if prior ≠ classifySide d.currentPrice d.ma200 then
              some (if classifySide d.currentPrice d.ma200 = Side.above then
                Direction.bullish else Direction.bearish)
            else none } := rfl

/-- A tick with no data (failed or empty fetch) changes nothing and
sends nothing. -/
lemma runTick_no_data (mem durable : MarketData) (channelOk saveOk : Bool) :
    runTick mem durable channelOk none saveOk
      = { mem := mem, durable := durable, alert := none } := by
  obtain ⟨ls, ac⟩ := mem
  cases ac with
  | none => rfl
  | some ch => cases channelOk with
    | false => rfl
    | true => rfl

/-- Fewer than 200 closes surviving the filter make `getAssetData`
return `null`. -/
lemma getAssetData_invalid (rawQuotes : List (Option ℚ))
    (h : (validCloses rawQuotes).length < 200) :
    getAssetData (some rawQuotes) = none := by
  unfold getAssetData
  dsimp only
  by_cases hraw : rawQuotes.length < 200
  · rw [if_pos hraw]
  · rw [if_neg hraw, if_pos h]

/-- A series of n identical nonzero closes survives the filter whole. -/
lemma validCloses_replicate (n : ℕ) (c : ℚ) (hc : c ≠ 0) :
    validCloses (List.replicate n (some c)) = List.replicate n c := by
  unfold validCloses
  induction n with
  | zero => rfl
  | succ m ih =>
    rw [List.replicate_succ, List.filter_cons]
    have ht : jsTruthy (some c) = true := by
      simp [jsTruthy, hc]
    rw [if_pos ht, List.filterMap_cons]
    dsimp only [id]
    rw [List.reverse_cons, ih, ← List.replicate_succ']

/-- Concrete evaluation: 200 closes of 1 yield the flat snapshot
(price 1, both MAs 1, both RSIs 100 since a flat series has zero
losses). -/
lemma getAssetData_flat :
    getAssetData (some (List.replicate 200 (some (1:ℚ)))) =
      some ⟨1, 1, 1, some 100, some 100⟩ := by
  have hv : validCloses (List.replicate 200 (some (1:ℚ))) = List.replicate 200 1 :=
    validCloses_replicate 200 1 one_ne_zero
  unfold getAssetData
  dsimp only
  rw [hv]
  rw [if_neg (by rw [List.length_replicate]; omega),
      if_neg (by rw [List.length_replicate]; omega),
      if_pos (by rw [List.length_replicate]; omega),
      if_pos (by rw [List.length_replicate]; omega)]
  simp only [Option.some.injEq, Snapshot.mk.injEq]
  refine ⟨?_, ?_, ?_, ?_, ?_⟩
  · simp [List.head?_replicate]
  · rw [List.take_replicate]
    norm_num [List.sum_replicate]
  · rw [List.take_replicate]
    norm_num [List.sum_replicate]
  · rw [List.take_replicate]
    norm_num [calculateRSI, rsiSums, rsiStep, List.range', List.replicate]
  · rw [List.take_replicate]
    norm_num [calculateRSI, rsiSums, rsiStep, List.range', List.replicate]

/-- The gains/losses accumulator never goes negative: each step adds a
positive difference to gains or an absolute value to losses. -/
lemma foldl_rsiStep_nonneg (closes : List ℚ) :
    ∀ (l : List ℕ) (acc : ℚ × ℚ), 0 ≤ acc.1 → 0 ≤ acc.2 →
      0 ≤ (l.foldl (rsiStep closes) acc).1 ∧ 0 ≤ (l.foldl (rsiStep closes) acc).2 := by
  intro l
  induction l with
  | nil => intro acc h1 h2; exact ⟨h1, h2⟩
  | cons i t ih =>
    intro acc h1 h2
    rw [List.foldl_cons]
    refine ih (rsiStep closes acc i) ?_ ?_
    · unfold rsiStep
      dsimp only
      split
      · next h => exact add_nonneg h1 (le_of_lt h)
      · exact h1
    · unfold rsiStep
      dsimp only
      split
      · exact h2
      · exact add_nonneg h2 (abs_nonneg _)

/-- Gains and losses are sums of nonnegative terms. -/
lemma rsiSums_nonneg (closes : List ℚ) (period : ℕ) :
    0 ≤ (rsiSums closes period).1 ∧ 0 ≤ (rsiSums closes period).2 :=
  foldl_rsiStep_nonneg closes (List.range' 1 period) (0, 0) le_rfl le_rfl

/-- Unfolding of `calculateRSI` in terms of the accumulated sums. -/
lemma calculateRSI_def (closes : List ℚ) (period : ℕ) :
    calculateRSI closes period =
      if (rsiSums closes period).2 / (period : ℚ) = 0 then 100
      else
        100 - 100 / (1 + ((rsiSums closes period).1 / (period : ℚ)) /
          ((rsiSums closes period).2 / (period : ℚ))) := rfl

/-- Range and saturation of the simple RSI: it always lies in [0, 100]
and hits 100 exactly when the average loss vanishes. -/
lemma calculateRSI_cases (closes : List ℚ) (period : ℕ) :
    0 ≤ calculateRSI closes period ∧ calculateRSI closes period ≤ 100 ∧
      (calculateRSI closes period = 100 ↔
        (rsiSums closes period).2 / (period : ℚ) = 0) := by
  obtain ⟨hg, hl⟩ := rsiSums_nonneg closes period
  have hG : 0 ≤ (rsiSums closes period).1 / (period : ℚ) :=
    div_nonneg hg (Nat.cast_nonneg period)
  have hL : 0 ≤ (rsiSums closes period).2 / (period : ℚ) :=
    div_nonneg hl (Nat.cast_nonneg period)
  rw [calculateRSI_def]
  by_cases h : (rsiSums closes period).2 / (period : ℚ) = 0
  · rw [if_pos h]
    norm_num [h]
  · rw [if_neg h]
    have hLpos : 0 < (rsiSums closes period).2 / (period : ℚ) :=
      lt_of_le_of_ne hL (Ne.symm h)
    have hrs : 0 ≤ ((rsiSums closes period).1 / (period : ℚ)) /
        ((rsiSums closes period).2 / (period : ℚ)) := div_nonneg hG (le_of_lt hLpos)
    have h1 : (0:ℚ) < 1 + ((rsiSums closes period).1 / (period : ℚ)) /
        ((rsiSums closes period).2 / (period : ℚ)) := by linarith
    have h2 : 0 < 100 / (1 + ((rsiSums closes period).1 / (period : ℚ)) /
        ((rsiSums closes period).2 / (period : ℚ))) := div_pos (by norm_num) h1
    have h3 : 100 / (1 + ((rsiSums closes period).1 / (period : ℚ)) /
        ((rsiSums closes period).2 / (period : ℚ))) ≤ 100 := by
      rw [div_le_iff₀ h1]
      nlinarith
    refine ⟨by linarith, by linarith, ?_⟩
    constructor
    · intro hEq
      exfalso
      linarith
    · intro hEq
      exact absurd hEq h

/-! ## Claim theorems -/

/-- C1: with a valid snapshot, the current side is ABOVE exactly when
currentPrice > ma200 (equality classifies BELOW); from prior ABOVE with
currentPrice < ma200 the tick emits a bearish alert and the new side is
BELOW; from prior BELOW with currentPrice > ma200 it emits a bullish
alert and the new side is ABOVE; when the side does not change, no
alert is emitted. -/
theorem evaluate_alert_on_flip (mem durable : MarketData) (ch : ℕ) (d : Snapshot)
    (saveOk : Bool) (hch : mem.alertChannel = some ch) :
    (classifySide d.currentPrice d.ma200 = Side.above ↔ d.ma200 < d.currentPrice) ∧
    (mem.lastStatus = some Side.above → d.currentPrice < d.ma200 →
      (runTick mem durable true (some d) saveOk).alert = some Direction.bearish ∧
      (runTick mem durable true (some d) saveOk).mem.lastStatus = some Side.below) ∧
    (mem.lastStatus = some Side.below → d.ma200 < d.currentPrice →
      (runTick mem durable true (some d) saveOk).alert = some Direction.bullish ∧
      (runTick mem durable true (some d) saveOk).mem.lastStatus = some Side.above) ∧
    (mem.lastStatus = some (classifySide d.currentPrice d.ma200) →
      (runTick mem durable true (some d) saveOk).alert = none) := by
  obtain ⟨ls, ac⟩ := mem
  have hac : ac = some ch := hch
  subst hac
  refine ⟨?_, ?_, ?_, ?_⟩
  · unfold classifySide
    by_cases h : d.ma200 < d.currentPrice
    · simp [h]
    · simp [h]
  · intro hls hlt
    have hls2 : ls = some Side.above := hls
    subst hls2
    have hcs : classifySide d.currentPrice d.ma200 = Side.below := by
      unfold classifySide
      rw [if_neg (by linarith)]
    rw [runTick_active]
    refine ⟨?_, ?_⟩
    · dsimp only
      rw [hcs]
      decide
    · dsimp only
      rw [hcs]
  · intro hls hlt
    have hls2 : ls = some Side.below := hls
    subst hls2
    have hcs : classifySide d.currentPrice d.ma200 = Side.above := by
      unfold classifySide
      rw [if_pos hlt]
    rw [runTick_active]
    refine ⟨?_, ?_⟩
    · dsimp only
      rw [hcs]
      decide
    · dsimp only
      rw [hcs]
  · intro hls
    have hls2 : ls = some (classifySide d.currentPrice d.ma200) := hls
    subst hls2
    rw [runTick_active]
    simp

/-- C1 witness: from prior side ABOVE with price 90 under the MA 100,
the tick emits the bearish alert and moves the in-memory side to
BELOW. -/
theorem evaluate_alert_on_flip_witness :
    (runTick ⟨some Side.above, some 7⟩ ⟨some Side.above, some 7⟩ true
        (some ⟨90, 100, 100, none, none⟩) true).alert = some Direction.bearish ∧
    (runTick ⟨some Side.above, some 7⟩ ⟨some Side.above, some 7⟩ true
        (some ⟨90, 100, 100, none, none⟩) true).mem.lastStatus = some Side.below :=
  (evaluate_alert_on_flip ⟨some Side.above, some 7⟩ ⟨some Side.above, some 7⟩ 7
    ⟨90, 100, 100, none, none⟩ true rfl).2.1 rfl (by norm_num)

/-- C2: a first evaluation (persisted side UNKNOWN, i.e. `null`) with a
valid snapshot never emits an alert but records the newly classified
side, both in memory and — when the write succeeds — durably. -/
theorem first_run_no_alert (mem durable : MarketData) (ch : ℕ) (d : Snapshot)
    (saveOk : Bool) (hch : mem.alertChannel = some ch)
    (hfirst : mem.lastStatus = none) :
    (runTick mem durable true (some d) saveOk).alert = none ∧
    (runTick mem durable true (some d) saveOk).mem.lastStatus =
      some (classifySide d.currentPrice d.ma200) ∧
    (runTick mem durable true (some d) true).durable.lastStatus =
      some (classifySide d.currentPrice d.ma200) := by
  obtain ⟨ls, ac⟩ := mem
  have hac : ac = some ch := hch
  subst hac
  have hls : ls = none := hfirst
  subst hls
  rw [runTick_active, runTick_active]
  simp

/-- C2 witness: first run over a snapshot with price above the MA sets
the side without alerting. -/
theorem first_run_no_alert_witness :
    (runTick ⟨none, some 3⟩ ⟨none, some 3⟩ true
        (some ⟨110, 100, 100, none, none⟩) true).alert = none ∧
    (runTick ⟨none, some 3⟩ ⟨none, some 3⟩ true
        (some ⟨110, 100, 100, none, none⟩) true).mem.lastStatus =
      some (classifySide 110 100) ∧
    (runTick ⟨none, some 3⟩ ⟨none, some 3⟩ true
        (some ⟨110, 100, 100, none, none⟩) true).durable.lastStatus =
      some (classifySide 110 100) :=
  first_run_no_alert ⟨none, some 3⟩ ⟨none, some 3⟩ 3 ⟨110, 100, 100, none, none⟩ true rfl rfl

/-- C3: the source mutates the in-memory `lastStatus` before the
durable write; when the write fails the tick is not rolled back, so the
in-memory record carries the new side while the durable record keeps
the old one — the state is partially written and the two copies
diverge, contradicting the claim.  Concretely: prior side BELOW on both
copies, price 110 above the MA 100, failing save. -/
theorem persist_failure_diverges :
    runTick ⟨some Side.below, some 7⟩ ⟨some Side.below, some 7⟩ true
        (some ⟨110, 100, 100, none, none⟩) false
      = { mem := ⟨some Side.above, some 7⟩
        , durable := ⟨some Side.below, some 7⟩
        , alert := some Direction.bullish } := by
  decide

/-- C6: on a successful evaluation (valid snapshot, successful write)
the newly classified side becomes the new persisted `lastStatus`, in
memory and on disk, whatever the prior side was — so regardless of
whether an alert fired. -/
theorem persist_new_side_always (mem durable : MarketData) (ch : ℕ) (d : Snapshot)
    (hch : mem.alertChannel = some ch) :
    (runTick mem durable true (some d) true).mem.lastStatus =
      some (classifySide d.currentPrice d.ma200) ∧
    (runTick mem durable true (some d) true).durable =
      { mem with lastStatus := some (classifySide d.currentPrice d.ma200) } := by
  obtain ⟨ls, ac⟩ := mem
  have hac : ac = some ch := hch
  subst hac
  rw [runTick_active]
  exact ⟨rfl, rfl⟩

/-- C6 witness: with a prior side already ABOVE (no alert fires), the
new side is still persisted. -/
theorem persist_new_side_always_witness :
    (runTick ⟨some Side.above, some 5⟩ ⟨some Side.above, some 5⟩ true
        (some ⟨110, 100, 100, none, none⟩) true).mem.lastStatus =
      some (classifySide 110 100) ∧
    (runTick ⟨some Side.above, some 5⟩ ⟨some Side.above, some 5⟩ true
        (some ⟨110, 100, 100, none, none⟩) true).durable =
      { lastStatus := some (classifySide 110 100), alertChannel := some 5 } :=
  persist_new_side_always ⟨some Side.above, some 5⟩ ⟨some Side.above, some 5⟩ 5
    ⟨110, 100, 100, none, none⟩ rfl

/-- C7: a tick whose fetch failed (no data), or whose data has fewer
than 200 closes surviving the filter (no ma200, `getAssetData` returns
`null`), is a no-op: both state copies are unchanged and no alert is
sent. -/
theorem tick_noop_without_data (mem durable : MarketData) (channelOk saveOk : Bool)
    (rawQuotes : List (Option ℚ)) :
    runTick mem durable channelOk none saveOk
      = { mem := mem, durable := durable, alert := none } ∧
    ((validCloses rawQuotes).length < 200 →
      runTick mem durable channelOk (getAssetData (some rawQuotes)) saveOk
        = { mem := mem, durable := durable, alert := none }) := by
  refine ⟨runTick_no_data mem durable channelOk saveOk, ?_⟩
  intro h
  rw [getAssetData_invalid rawQuotes h]
  exact runTick_no_data mem durable channelOk saveOk

/-- C7 witness: an empty provider result leaves a registered, known
state untouched. -/
theorem tick_noop_without_data_witness :
    runTick ⟨some Side.above, some 2⟩ ⟨some Side.above, some 2⟩ true none true
      = { mem := ⟨some Side.above, some 2⟩
        , durable := ⟨some Side.above, some 2⟩
        , alert := none } ∧
    runTick ⟨some Side.above, some 2⟩ ⟨some Side.above, some 2⟩ true
        (getAssetData (some [])) true
      = { mem := ⟨some Side.above, some 2⟩
        , durable := ⟨some Side.above, some 2⟩
        , alert := none } :=
  ⟨(tick_noop_without_data ⟨some Side.above, some 2⟩ ⟨some Side.above, some 2⟩
      true true []).1,
   (tick_noop_without_data ⟨some Side.above, some 2⟩ ⟨some Side.above, some 2⟩
      true true []).2 (by decide)⟩

/-- C4: with at least 200 closes surviving the filter, `getAssetData`
returns a snapshot whose ma200 is the arithmetic mean of the 200 most
recent closes (`validCloses` is latest-first, so its first 200
elements); with fewer than 200 it returns `null`. -/
theorem computeIndicators_validity (rawQuotes : List (Option ℚ)) :
    (200 ≤ (validCloses rawQuotes).length →
      ∃ snap, getAssetData (some rawQuotes) = some snap ∧
        snap.ma200 = ((validCloses rawQuotes).take 200).sum / 200) ∧
    ((validCloses rawQuotes).length < 200 → getAssetData (some rawQuotes) = none) := by
  refine ⟨?_, getAssetData_invalid rawQuotes⟩
  intro h
  have hle : (validCloses rawQuotes).length ≤ rawQuotes.length := by
    unfold validCloses
    calc ((rawQuotes.filter jsTruthy).filterMap id).reverse.length
        = ((rawQuotes.filter jsTruthy).filterMap id).length :=
          List.length_reverse _
      _ ≤ (rawQuotes.filter jsTruthy).length := List.length_filterMap_le _ _
      _ ≤ rawQuotes.length := List.length_filter_le _ _
  unfold getAssetData
  dsimp only
  rw [if_neg (by omega), if_neg (by omega)]
  exact ⟨_, rfl, rfl⟩

/-- C4 witness: 200 closes of 1 give a snapshot with ma200 = 1 (the
mean of the 200 ones); the empty series gives `null`. -/
theorem computeIndicators_validity_witness :
    (∃ snap, getAssetData (some (List.replicate 200 (some (1:ℚ)))) = some snap ∧
      snap.ma200 =
        ((validCloses (List.replicate 200 (some (1:ℚ)))).take 200).sum / 200) ∧
    getAssetData (some ([] : List (Option ℚ))) = none :=
  ⟨(computeIndicators_validity (List.replicate 200 (some (1:ℚ)))).1
      (by rw [validCloses_replicate 200 1 one_ne_zero, List.length_replicate]),
   (computeIndicators_validity ([] : List (Option ℚ))).2 (by decide)⟩

/-- C8 counterexample: the claim says every entry with a present
numeric close is retained, but a present close of 0 is falsy in JS and
the filter drops it: the retained list for the one-entry series with
close 0 is empty, not the singleton 0. -/
theorem filter_drops_zero_close :
    (([some (0:ℚ)]).filter jsTruthy).filterMap id = ([] : List ℚ) ∧
    ([] : List ℚ) ≠ [(0:ℚ)] := by
  constructor
  · rfl
  · decide

/-- C8 (amended): the pre-filter retains, in order, exactly the entries
whose close is present and nonzero (JS-truthy); entries with a missing
or zero close are dropped.  Stated as: the source's filter/map pipeline
equals the spec-modelled present-and-nonzero selection. -/
theorem filter_keeps_present_nonzero (rawQuotes : List (Option ℚ)) :
    (rawQuotes.filter jsTruthy).filterMap id = presentNonzeroCloses rawQuotes := by
  induction rawQuotes with
  | nil => rfl
  | cons q t ih =>
    cases q with
    | none =>
      simpa [presentNonzeroCloses, List.filter_cons, List.filterMap_cons, jsTruthy] using ih
    | some v =>
      by_cases hv : v = 0
      · subst hv
        simpa [presentNonzeroCloses, List.filter_cons, List.filterMap_cons, jsTruthy] using ih
      · simpa [presentNonzeroCloses, List.filter_cons, List.filterMap_cons, jsTruthy, hv] using ih

/-- C9: the report classifies a present RSI value as Overbought exactly
when it is ≥ 70, Oversold exactly when it is ≤ 30, and Neutral exactly
when it lies strictly between 30 and 70. -/
theorem rsiStatus_thresholds (r : ℚ) :
    (rsiStatus r = RsiClass.overbought ↔ 70 ≤ r) ∧
    (rsiStatus r = RsiClass.oversold ↔ r ≤ 30) ∧
    (rsiStatus r = RsiClass.neutral ↔ 30 < r ∧ r < 70) := by
  unfold rsiStatus
  by_cases h1 : 70 ≤ r
  · rw [if_pos h1]
    exact ⟨iff_of_true rfl h1,
           iff_of_false (by decide) (fun hc => by linarith),
           iff_of_false (by decide) (fun hc => by rcases hc with ⟨hc1, hc2⟩; linarith)⟩
  · rw [if_neg h1]
    by_cases h2 : r ≤ 30
    · rw [if_pos h2]
      exact ⟨iff_of_false (by decide) h1,
             iff_of_true rfl h2,
             iff_of_false (by decide) (fun hc => by rcases hc with ⟨hc1, hc2⟩; linarith)⟩
    · rw [if_neg h2]
      exact ⟨iff_of_false (by decide) h1,
             iff_of_false (by decide) h2,
             iff_of_true rfl ⟨by linarith, by linarith⟩⟩

/-- C10: every snapshot `getAssetData` actually returns carries both
RSI values: validity already requires at least 200 filtered closes,
which exceeds the 6- and 15-point RSI minimums, so the `null`-RSI
branches are unreachable on the valid path. -/
theorem valid_snapshot_has_both_rsi (chartQuotes : Option (List (Option ℚ)))
    (snap : Snapshot) (h : getAssetData chartQuotes = some snap) :
    snap.rsi5.isSome ∧ snap.rsi14.isSome := by
  match chartQuotes with
  | none => simp [getAssetData] at h
  | some rawQuotes =>
    unfold getAssetData at h
    dsimp only at h
    by_cases h1 : rawQuotes.length < 200
    · rw [if_pos h1] at h
      exact absurd h (by simp)
    · rw [if_neg h1] at h
      by_cases h2 : (validCloses rawQuotes).length < 200
      · rw [if_pos h2] at h
        exact absurd h (by simp)
      · rw [if_neg h2] at h
        rw [if_pos (by omega), if_pos (by omega)] at h
        obtain rfl := Option.some.inj h
        exact ⟨rfl, rfl⟩

/-- C10 witness: the snapshot computed from 200 closes of 1 carries
both RSI values (both equal to 100 on the flat series). -/
theorem valid_snapshot_has_both_rsi_witness :
    (Snapshot.mk 1 1 1 (some 100) (some 100)).rsi5.isSome ∧
    (Snapshot.mk 1 1 1 (some 100) (some 100)).rsi14.isSome :=
  valid_snapshot_has_both_rsi (some (List.replicate 200 (some 1)))
    (Snapshot.mk 1 1 1 (some 100) (some 100)) getAssetData_flat

/-- C5 counterexample: on the flat 6-close series with period 5 the
code returns RSI = 100 although the average gain is 0, not positive:
`avgLoss === 0` alone forces `rs = Infinity` and RSI = 100, so the
claim's "exactly when avgLoss = 0 and avgGain > 0" is false. -/
theorem calculateRSI_flat_is_100 :
    calculateRSI (List.replicate 6 (100:ℚ)) 5 = 100 ∧
    ¬ 0 < (rsiSums (List.replicate 6 (100:ℚ)) 5).1 / ((5:ℕ) : ℚ) := by
  constructor
  · norm_num [calculateRSI, rsiSums, rsiStep, List.range', List.replicate]
  · norm_num [rsiSums, rsiStep, List.range', List.replicate]

/-- C5 (amended): for every series of length P+1, the computed RSI lies
in [0, 100], and RSI = 100 exactly when the average loss is 0 — whether
or not the average gain is positive. -/
theorem calculateRSI_range_and_max (closes : List ℚ) (period : ℕ)
    (h : closes.length = period + 1) :
    0 ≤ calculateRSI closes period ∧ calculateRSI closes period ≤ 100 ∧
      (calculateRSI closes period = 100 ↔
        (rsiSums closes period).2 / ((period : ℕ) : ℚ) = 0) :=
  calculateRSI_cases closes period

/-- C5 witness: a strictly falling 6-close series (latest first, so
every look-back difference is a gain) has zero losses and RSI 100. -/
theorem calculateRSI_range_and_max_witness :
    0 ≤ calculateRSI [(106:ℚ), 105, 104, 103, 102, 101] 5 ∧
    calculateRSI [(106:ℚ), 105, 104, 103, 102, 101] 5 ≤ 100 ∧
      (calculateRSI [(106:ℚ), 105, 104, 103, 102, 101] 5 = 100 ↔
        (rsiSums [(106:ℚ), 105, 104, 103, 102, 101] 5).2 / ((5:ℕ) : ℚ) = 0) :=
  calculateRSI_range_and_max [(106:ℚ), 105, 104, 103, 102, 101] 5 (by decide)

end Stonks
